import Mathlib

/-!
Verification development for the `subprocess` repository (CS110-style assign3).

The repository ships `src/assign/code/assign3/subprocess-test.cc`, the unit-test
driver for a subprocess-spawning primitive.  The primitive itself
(`subprocess.h` / `subprocess.cc`: the `subprocess_t` record, `kNotInUse`,
`SubprocessException` and the `subprocess` function) is declared and exercised
by the test file but its implementation is not part of the repository, so it is
modelled here from the specification (spec.md §3, §4.1, §6, §7), as an explicit
state-passing embedding of the fork/exec/pipe choreography.  The test-driver
functions (`waitForChildProcess`, `main`) are embedded from the source file.
-/

/-- Modelled from the spec (§6, missing subprocess.h): the sentinel constant
denoting a descriptor not in use, distinguishable from every valid descriptor
(valid descriptors are positive). -/
def kNotInUse : Int := -1

/-- Modelled from the spec (§3, missing subprocess.h): the handle returned by a
successful spawn: the child pid and the two optionally-connected descriptors. -/
structure subprocess_t where
  pid : Int
  supplyfd : Int
  ingestfd : Int
deriving Repr, DecidableEq

/-- Modelled from the spec (§6, §7, missing subprocess.h): the failure signal
raised synchronously by `subprocess`, carrying a human-readable diagnostic. -/
structure SubprocessException where
  msg : String
deriving Repr, DecidableEq

/-- Modelled from the spec (§9, missing subprocess.cc): the possible outcomes of
the child path after the process split.  `execed` means the image replacement
succeeded and the child now runs the requested command; `exited code` means the
child terminated immediately with status `code`; `fellThrough` is the forbidden
outcome in which the child would continue executing parent code. -/
inductive ChildOutcome
  | execed
  | exited (code : Nat)
  | fellThrough
deriving Repr, DecidableEq

/-- Modelled from the spec (§4.1 step 2, missing subprocess.cc): the child path
wires the pipe ends to its standard descriptors and then replaces its process
image; if the replacement fails the child exits at once with a non-zero status
instead of continuing into parent code. -/
def setupChild (execSucceeds : Bool) : ChildOutcome :=
  if execSucceeds then ChildOutcome.execed else ChildOutcome.exited 1

/-- A spawned child as recorded in the kernel model: its pid, the outcome of its
setup path, and the signal that terminated it, if any. -/
structure ChildProc where
  pid : Nat
  outcome : ChildOutcome
  killedBy : Option Nat
deriving Repr, DecidableEq

/-- The explicit operating-system state threaded through the model: descriptor
allocation, the parent's open descriptors, pid allocation, the live (spawned,
unreaped) children, the remaining pipe and process creation budgets, and the
set of paths for which image replacement succeeds. -/
structure OSState where
  nextFd : Nat
  openFds : List Nat
  nextPid : Nat
  livePids : List Nat
  children : List ChildProc
  pipeBudget : Nat
  forkBudget : Nat
  execPaths : List String
deriving Repr, DecidableEq

/-- Modelled from the spec (§4.1 step 1, glossary): create one unidirectional
pipe, allocating two fresh descriptors (read end, write end) in the parent, or
fail when the resource budget is exhausted. -/
def createPipe (st : OSState) : Option ((Nat × Nat) × OSState) :=
  if st.pipeBudget = 0 then none
  else some ((st.nextFd, st.nextFd + 1),
    { st with
      nextFd := st.nextFd + 2
      openFds := st.nextFd :: (st.nextFd + 1) :: st.openFds
      pipeBudget := st.pipeBudget - 1 })

/-- Close a descriptor in the parent: remove it from the open-descriptor set. -/
def closeFd (fd : Nat) (st : OSState) : OSState :=
  { st with openFds := st.openFds.filter (fun f => f ≠ fd) }

/-- Close both ends of an optionally-created pipe. -/
def closePipeOpt : Option (Nat × Nat) → OSState → OSState
  | none, st => st
  | some (r, w), st => closeFd w (closeFd r st)

/-- Modelled from the spec (§4.1 step 1, missing subprocess.cc): create the
pipes requested by the two redirection flags before the process split; if the
second pipe cannot be created, the already-created first pipe is closed before
the failure is reported, so no partially-created resources remain. -/
def allocPipes (redirectIn redirectOut : Bool) (st0 : OSState) :
    Except SubprocessException (Option (Nat × Nat) × Option (Nat × Nat)) × OSState :=
  if redirectIn then
    match createPipe st0 with
    | none => (Except.error ⟨"pipe creation failed"⟩, st0)
    | some (sp, st1) =>
      if redirectOut then
        match createPipe st1 with
        | none => (Except.error ⟨"pipe creation failed"⟩, closePipeOpt (some sp) st1)
        | some (ip, st2) => (Except.ok (some sp, some ip), st2)
      else (Except.ok (some sp, none), st1)
  else
    if redirectOut then
      match createPipe st0 with
      | none => (Except.error ⟨"pipe creation failed"⟩, st0)
      | some (ip, st1) => (Except.ok (none, some ip), st1)
    else (Except.ok (none, none), st0)

/-- Modelled from the spec (§4.1 step 2): the platform process-creation step;
allocates a fresh pid or fails when the process budget is exhausted. -/
def fork (st : OSState) : Option (Nat × OSState) :=
  if st.forkBudget = 0 then none
  else some (st.nextPid,
    { st with nextPid := st.nextPid + 1, forkBudget := st.forkBudget - 1 })

/-- Modelled from the spec (§4.1, missing subprocess.cc):
`subprocess(argv, supplyChildInput, ingestChildOutput)`.  Creates the requested
pipes, performs the process split, runs the child path (`setupChild`), has the
parent close the unused pipe ends (read end of the input pipe, write end of the
output pipe), and returns the handle.  Failures of pipe creation or of the
process-creation step are raised synchronously after closing every descriptor
already opened; the state is returned alongside the result since it persists
across the exception. -/
def subprocess (argv : List String) (supplyChildInput ingestChildOutput : Bool)
    (st0 : OSState) : Except SubprocessException subprocess_t × OSState :=
  match allocPipes supplyChildInput ingestChildOutput st0 with
  | (Except.error e, st) => (Except.error e, st)
  | (Except.ok (supplyPipe, ingestPipe), st1) =>
    match fork st1 with
    | none =>
      (Except.error ⟨"process creation failed"⟩,
        closePipeOpt ingestPipe (closePipeOpt supplyPipe st1))
    | some (pid, st2) =>
      let child : ChildProc :=
        { pid := pid
          outcome := setupChild (decide (argv.headD "" ∈ st2.execPaths))
          killedBy := none }
      let st3 := { st2 with
        livePids := pid :: st2.livePids
        children := child :: st2.children }
      let st4 := match supplyPipe with
        | none => st3
        | some (r, _w) => closeFd r st3
      let st5 := match ingestPipe with
        | none => st4
        | some (_r, w) => closeFd w st4
      (Except.ok
        { pid := Int.ofNat pid
          supplyfd := match supplyPipe with
            | none => kNotInUse
            | some (_r, w) => Int.ofNat w
          ingestfd := match ingestPipe with
            | none => kNotInUse
            | some (r, _w) => Int.ofNat r }, st5)

/-- The status a reap observes: normal exit with a code, or abnormal
termination by a signal. -/
inductive ExitStatus
  | exited (code : Nat)
  | signaled (sig : Nat)
deriving Repr, DecidableEq

/-- The status the kernel reports for a child: a delivered fatal signal takes
precedence; otherwise a successfully execed child exits normally with status 0
and a child whose setup path exited early reports that early status. -/
def reapStatus (c : ChildProc) : ExitStatus :=
  match c.killedBy with
  | some sig => ExitStatus.signaled sig
  | none =>
    match c.outcome with
    | ChildOutcome.execed => ExitStatus.exited 0
    | ChildOutcome.exited code => ExitStatus.exited code
    | ChildOutcome.fellThrough => ExitStatus.exited 0

/-- Modelled from the spec (§4.1 state machine, §6 reap surface): a blocking
wait keyed by pid.  Succeeds exactly for a currently live, unreaped child,
consuming its exit status and releasing its process-table entry; waiting on a
pid with no live child fails (`none`). -/
def waitpid (pid : Nat) (st : OSState) : Option (ExitStatus × OSState) :=
  if pid ∈ st.livePids then
    match st.children.find? (fun c => c.pid = pid) with
    | none => none
    | some c =>
      some (reapStatus c,
        { st with
          livePids := st.livePids.filter (fun p => p ≠ pid)
          children := st.children.filter (fun d => d.pid ≠ pid) })
  else none

/-- Modelled from the spec (§5): deliver a termination signal to the recorded
pid directly; the targeted child is marked as terminated by that signal. -/
def kill (pid : Nat) (sig : Nat) (st : OSState) : OSState :=
  { st with
    children := st.children.map (fun c =>
      if c.pid = pid then { c with killedBy := some sig } else c) }

/-- The SIGTERM signal number used by the tests. -/
def SIGTERM : Nat := 15

/-- From src/assign/code/assign3/subprocess-test.cc lines 57-61: halts until the
given child exits; throws a `SubprocessException` when `waitpid` does not
return the requested pid. -/
def waitForChildProcess (pid : Nat) (st : OSState) :
    Except SubprocessException (ExitStatus × OSState) :=
  match waitpid pid st with
  | none =>
    Except.error ⟨"Encountered a problem while waiting for the subprocess to finish."⟩
  | some (status, st1) => Except.ok (status, st1)

/-- Modelled from the spec (glossary, §8): draining a pipe reads every written
line, in write order, and terminates exactly when the write end has been
closed; with the write end still open the reader would block (`none`). -/
def drainPipe (writes : List String) (writeEndClosed : Bool) : Option (List String) :=
  if writeEndClosed then some writes else none

/-- Lexicographic comparison of character sequences by code point. -/
def charsLe : List Char → List Char → Bool
  | [], _ => true
  | _ :: _, [] => false
  | x :: xs, y :: ys =>
    if x.toNat < y.toNat then true
    else if y.toNat < x.toNat then false
    else charsLe xs ys

/-- Lexicographic comparison on strings, the order by which the sort filter
arranges its lines. -/
def strLe (a b : String) : Bool := charsLe a.data b.data

/-- Insert a line into an already sorted list of lines. -/
def insertSorted (w : String) : List String → List String
  | [] => [w]
  | x :: xs => if strLe w x then w :: x :: xs else x :: insertSorted w xs

/-- Modelled from the spec (§8): the `/usr/bin/sort` collaborator as a
line-sorting filter: it emits its input lines in lexicographically sorted
order. -/
def sortFilter (input : List String) : List String :=
  input.foldr insertSorted []

/-- Modelled from the spec (§8): a relaying child that merely passes its input
lines through to its output unchanged. -/
def relayFilter (input : List String) : List String := input

/-- Modelled from the spec (§5, §8): the end-to-end pipeline: the parent writes
lines to the supply descriptor, optionally closes the write end, the child
reads everything up to end-of-input, processes the lines, and the parent reads
the complete output sequence. -/
def runFilterPipeline (child : List String → List String)
    (writes : List String) (writeEndClosed : Bool) : Option (List String) :=
  (drainPipe writes writeEndClosed).map child

/-- From src/assign/code/assign3/subprocess-test.cc line 25: the unordered words
the tests publish to the child. -/
def kWords : List String := ["put", "a", "ring", "on", "it"]

/-- From src/assign/code/assign3/subprocess-test.cc line 68: the sort
executable path used by the tests. -/
def kSortExecutable : String := "/usr/bin/sort"

/-- The exceptions the test driver distinguishes: a `SubprocessException`, or
anything else. -/
inductive TestExc
  | subprocessExc (e : SubprocessException)
  | otherExc
deriving Repr, DecidableEq

/-- The observable result of running one test function: completes, or throws. -/
abbrev TestResult := Except TestExc Unit

/-- From src/assign/code/assign3/subprocess-test.cc lines 124-129: the five test
functions run in order inside the try block; the first exception aborts the
sequence and propagates. -/
def runAllTests (t1 t2 t3 t4 t5 : TestResult) : TestResult :=
  match t1 with
  | Except.error e => Except.error e
  | Except.ok _ =>
    match t2 with
    | Except.error e => Except.error e
    | Except.ok _ =>
      match t3 with
      | Except.error e => Except.error e
      | Except.ok _ =>
        match t4 with
        | Except.error e => Except.error e
        | Except.ok _ => t5

/-- From src/assign/code/assign3/subprocess-test.cc lines 123-138: `main` runs
the five tests, returns 0 when all complete, catches a `SubprocessException`
and returns 1, and catches everything else and returns 2. -/
def mainFn (t1 t2 t3 t4 t5 : TestResult) : Nat :=
  match runAllTests t1 t2 t3 t4 t5 with
  | Except.ok _ => 0
  | Except.error (TestExc.subprocessExc _) => 1
  | Except.error TestExc.otherExc => 2

/-- A demonstration initial state: standard descriptors 0-2 open, fresh
descriptors from 3, pids from 1, both pipes and the process creatable, and the
sort executable present. -/
def demoState : OSState :=
  { nextFd := 3
    openFds := [0, 1, 2]
    nextPid := 1
    livePids := []
    children := []
    pipeBudget := 2
    forkBudget := 1
    execPaths := [kSortExecutable] }

/-- Helper: closing a descriptor at least as large as every open one leaves the
open-descriptor list unchanged. -/
theorem filter_ne_of_lt (l : List Nat) (n m : Nat) (hl : ∀ f ∈ l, f < n)
    (hm : n ≤ m) : l.filter (fun f => f ≠ m) = l := by
  apply List.filter_eq_self.mpr
  intro a ha
  have h := hl a ha
  simp only [ne_eq, decide_eq_true_eq]
  omega

/-- C3: in the child path of spawn, a failed image replacement makes the child
exit immediately with a non-zero status; for no input does the child path fall
through into parent code. -/
theorem setupChild_no_fallthrough (execSucceeds : Bool) :
    setupChild execSucceeds ≠ ChildOutcome.fellThrough ∧
    (execSucceeds = false →
      ∃ code, setupChild execSucceeds = ChildOutcome.exited code ∧ code ≠ 0) := by
  cases execSucceeds <;> simp [setupChild]

/-- Witness for C3 at the failing-replacement input. -/
theorem setupChild_no_fallthrough_witness :
    setupChild false ≠ ChildOutcome.fellThrough ∧
    (false = false →
      ∃ code, setupChild false = ChildOutcome.exited code ∧ code ≠ 0) :=
  setupChild_no_fallthrough false

/-- C5: spawning the line-sorting filter with both redirections enabled
succeeds with both descriptors valid, and writing the five unordered words,
closing the write end, and reading all lines yields exactly the
lexicographically sorted sequence. -/
theorem sort_pipeline_sorted :
    (∃ hnd st1, subprocess [kSortExecutable] true true demoState =
        (Except.ok hnd, st1) ∧ 0 < hnd.supplyfd ∧ 0 < hnd.ingestfd) ∧
    runFilterPipeline sortFilter kWords true =
      some ["a", "it", "on", "put", "ring"] := by
  refine ⟨⟨{ pid := 1, supplyfd := 4, ingestfd := 5 }, _, rfl, by decide, by decide⟩, ?_⟩
  decide

/-- C9: closing the supply descriptor without writing any bytes gives a
relaying child immediate end-of-input, so the complete output sequence is
empty; without the close the reader would never see end-of-input. -/
theorem empty_supply_empty_output :
    runFilterPipeline relayFilter [] true = some [] ∧
    runFilterPipeline relayFilter [] false = none ∧
    runFilterPipeline sortFilter [] true = some [] := by
  decide

/-- C7: once a reap has consumed a child, a second reap of the same pid fails
deterministically: the underlying wait reports no such live child and the
test-driver wrapper throws rather than silently reporting success. -/
theorem reap_twice_fails (pid : Nat) (st st1 : OSState) (status : ExitStatus)
    (h : waitpid pid st = some (status, st1)) :
    waitpid pid st1 = none ∧
    waitForChildProcess pid st1 =
      Except.error
        ⟨"Encountered a problem while waiting for the subprocess to finish."⟩ := by
  have hmem : pid ∉ st1.livePids := by
    unfold waitpid at h
    split at h
    · split at h
      · exact absurd h (by simp)
      · cases h
        simp
    · exact absurd h (by simp)
  constructor
  · unfold waitpid
    simp [hmem]
  · unfold waitForChildProcess waitpid
    simp [hmem]

/-- Witness for C7: reaping the lone child of a concrete post-spawn state. -/
theorem reap_twice_fails_witness :
    waitpid 1
        { nextFd := 3, openFds := [0, 1, 2], nextPid := 2, livePids := [],
          children := [], pipeBudget := 2, forkBudget := 0,
          execPaths := [kSortExecutable] } = none ∧
    waitForChildProcess 1
        { nextFd := 3, openFds := [0, 1, 2], nextPid := 2, livePids := [],
          children := [], pipeBudget := 2, forkBudget := 0,
          execPaths := [kSortExecutable] } =
      Except.error
        ⟨"Encountered a problem while waiting for the subprocess to finish."⟩ :=
  reap_twice_fails 1
    { nextFd := 3, openFds := [0, 1, 2], nextPid := 2, livePids := [1],
      children := [{ pid := 1, outcome := ChildOutcome.execed, killedBy := none }],
      pipeBudget := 2, forkBudget := 0, execPaths := [kSortExecutable] }
    _ (ExitStatus.exited 0) rfl

/-- C1: for every successful spawn and all four combinations of the two flags,
the supply descriptor is valid (positive) exactly when input redirection was
requested and is the sentinel exactly when it was not; likewise the ingest
descriptor for output redirection. -/
theorem subprocess_descriptor_flags (argv : List String) (rIn rOut : Bool)
    (st0 : OSState) (hnd : subprocess_t) (st1 : OSState)
    (hfd : 0 < st0.nextFd)
    (h : subprocess argv rIn rOut st0 = (Except.ok hnd, st1)) :
    ((0 < hnd.supplyfd ↔ rIn = true) ∧ (hnd.supplyfd = kNotInUse ↔ rIn = false)) ∧
    ((0 < hnd.ingestfd ↔ rOut = true) ∧ (hnd.ingestfd = kNotInUse ↔ rOut = false)) := by
  cases rIn <;> cases rOut <;>
    by_cases h1 : st0.pipeBudget = 0 <;>
    by_cases h2 : st0.pipeBudget - 1 = 0 <;>
    by_cases h3 : st0.forkBudget = 0 <;>
    simp [subprocess, allocPipes, createPipe, fork, h1, h2, h3] at h
  all_goals
    obtain ⟨rfl, rfl⟩ := h
    refine ⟨⟨?_, ?_⟩, ?_, ?_⟩ <;> simp [kNotInUse] <;> try omega

/-- Witness for C1 at a concrete successful spawn with both flags true. -/
theorem subprocess_descriptor_flags_witness :
    ((0 < (subprocess_t.mk 1 4 5).supplyfd ↔ true = true) ∧
      ((subprocess_t.mk 1 4 5).supplyfd = kNotInUse ↔ true = false)) ∧
    ((0 < (subprocess_t.mk 1 4 5).ingestfd ↔ true = true) ∧
      ((subprocess_t.mk 1 4 5).ingestfd = kNotInUse ↔ true = false)) :=
  subprocess_descriptor_flags [kSortExecutable] true true demoState
    (subprocess_t.mk 1 4 5)
    { nextFd := 7, openFds := [5, 4, 0, 1, 2], nextPid := 2, livePids := [1],
      children := [{ pid := 1, outcome := ChildOutcome.execed, killedBy := none }],
      pipeBudget := 0, forkBudget := 0, execPaths := [kSortExecutable] }
    (by decide) rfl

/-- Helper: closing both freshly allocated ends of one pipe restores the
original open-descriptor list. -/
theorem filter_two (l : List Nat) (n : Nat) (hl : ∀ f ∈ l, f < n) :
    ((n :: (n + 1) :: l).filter (fun f => f ≠ n)).filter (fun f => f ≠ n + 1) = l := by
  have e0 := filter_ne_of_lt l n n hl le_rfl
  have e1 := filter_ne_of_lt l n (n + 1) hl (by omega)
  simp [List.filter_cons, e0, e1]
  intro a ha
  have := hl a ha
  omega

/-- Helper: closing all four freshly allocated ends of two pipes restores the
original open-descriptor list. -/
theorem filter_four (l : List Nat) (n : Nat) (hl : ∀ f ∈ l, f < n) :
    (((((n + 2) :: (n + 3) :: n :: (n + 1) :: l).filter (fun f => f ≠ n)).filter
        (fun f => f ≠ n + 1)).filter (fun f => f ≠ n + 2)).filter
      (fun f => f ≠ n + 3) = l := by
  have e0 := filter_ne_of_lt l n n hl le_rfl
  have e1 := filter_ne_of_lt l n (n + 1) hl (by omega)
  have e2 := filter_ne_of_lt l n (n + 2) hl (by omega)
  have e3 := filter_ne_of_lt l n (n + 3) hl (by omega)
  simp [List.filter_cons, e0, e1, e2, e3]
  intro a ha
  have := hl a ha
  omega

/-- C4: when spawn fails, it fails atomically: every descriptor opened before
the failing step has been closed again, so the parent's open-descriptor set is
exactly what it was before the call. -/
theorem subprocess_error_atomic (argv : List String) (rIn rOut : Bool)
    (st0 : OSState) (e : SubprocessException) (st1 : OSState)
    (hfresh : ∀ f ∈ st0.openFds, f < st0.nextFd)
    (h : subprocess argv rIn rOut st0 = (Except.error e, st1)) :
    st1.openFds = st0.openFds := by
  cases rIn <;> cases rOut <;>
    by_cases h1 : st0.pipeBudget = 0 <;>
    by_cases h2 : st0.pipeBudget - 1 = 0 <;>
    by_cases h3 : st0.forkBudget = 0 <;>
    simp [subprocess, allocPipes, createPipe, fork, h1, h2, h3] at h
  all_goals
    obtain ⟨rfl, rfl⟩ := h
    first
    | rfl
    | (simp only [closePipeOpt, closeFd]
       first
       | exact filter_two _ _ hfresh
       | exact filter_four _ _ hfresh)

/-- C2: spawn raises its failure signal synchronously exactly when pipe
creation or the process-creation step fails; when the requested command cannot
be execed but resources suffice, spawn still succeeds and the failure shows up
only as an early non-zero exit of the child at reap time. -/
theorem subprocess_failure_modes (argv : List String) (rIn rOut : Bool)
    (st0 : OSState) (hexec : argv.headD "" ∉ st0.execPaths) :
    ((∃ e st1, subprocess argv rIn rOut st0 = (Except.error e, st1)) ↔
      st0.pipeBudget < cond rIn 1 0 + cond rOut 1 0 ∨ st0.forkBudget = 0) ∧
    (∀ hnd st1, subprocess argv rIn rOut st0 = (Except.ok hnd, st1) →
      ∃ code st2, waitpid hnd.pid.toNat st1 = some (ExitStatus.exited code, st2) ∧
        code ≠ 0) := by
  have hx : argv.head?.getD "" ∉ st0.execPaths := by simpa using hexec
  cases rIn <;> cases rOut <;>
    by_cases h1 : st0.pipeBudget = 0 <;>
    by_cases h2 : st0.pipeBudget - 1 = 0 <;>
    by_cases h3 : st0.forkBudget = 0 <;>
    constructor <;>
    simp [subprocess, allocPipes, createPipe, fork, waitpid, reapStatus, setupChild,
          closeFd, List.find?, Int.toNat_ofNat, h1, h2, h3, hx] <;>
    try omega

/-- C6: every successful spawn hands back a strictly positive pid that no
currently live handle already carries, and the live set stays duplicate-free
with every live pid below the next pid to be allocated. -/
theorem subprocess_pid_fresh (argv : List String) (rIn rOut : Bool)
    (st0 : OSState) (hnd : subprocess_t) (st1 : OSState)
    (hpid : 0 < st0.nextPid)
    (hlive : ∀ p ∈ st0.livePids, p < st0.nextPid)
    (hnodup : st0.livePids.Nodup)
    (h : subprocess argv rIn rOut st0 = (Except.ok hnd, st1)) :
    0 < hnd.pid ∧ hnd.pid.toNat ∉ st0.livePids ∧
      st1.livePids = hnd.pid.toNat :: st0.livePids ∧ st1.livePids.Nodup ∧
      ∀ p ∈ st1.livePids, p < st1.nextPid := by
  cases rIn <;> cases rOut <;>
    by_cases h1 : st0.pipeBudget = 0 <;>
    by_cases h2 : st0.pipeBudget - 1 = 0 <;>
    by_cases h3 : st0.forkBudget = 0 <;>
    simp [subprocess, allocPipes, createPipe, fork, h1, h2, h3] at h
  all_goals
    obtain ⟨rfl, rfl⟩ := h
    refine ⟨?_, ?_, by rfl, ?_, ?_⟩
    · show (0 : Int) < (st0.nextPid : Int)
      omega
    · show st0.nextPid ∉ st0.livePids
      intro hm
      exact absurd (hlive _ hm) (lt_irrefl _)
    · exact List.nodup_cons.mpr
        ⟨fun hm => absurd (hlive _ hm) (lt_irrefl _), hnodup⟩
    · intro p hp
      show p < st0.nextPid + 1
      rcases List.mem_cons.mp hp with hc | hc
      · omega
      · have := hlive _ hc
        omega

/-- C8: spawning with both redirections disabled yields a valid pid and both
descriptor fields set to the sentinel, and sending SIGTERM to that pid followed
by a reap succeeds, reporting abnormal (signal) termination. -/
theorem kill_then_reap_abnormal (argv : List String) (st0 : OSState)
    (hnd : subprocess_t) (st1 : OSState) (hpid : 0 < st0.nextPid)
    (h : subprocess argv false false st0 = (Except.ok hnd, st1)) :
    0 < hnd.pid ∧ hnd.supplyfd = kNotInUse ∧ hnd.ingestfd = kNotInUse ∧
      ∃ st2, waitForChildProcess hnd.pid.toNat (kill hnd.pid.toNat SIGTERM st1) =
        Except.ok (ExitStatus.signaled SIGTERM, st2) := by
  by_cases h3 : st0.forkBudget = 0 <;>
    simp [subprocess, allocPipes, fork, h3] at h
  obtain ⟨rfl, rfl⟩ := h
  refine ⟨?_, rfl, rfl, ?_⟩
  · show (0 : Int) < (st0.nextPid : Int)
    omega
  · simp [kill, waitForChildProcess, waitpid, reapStatus, List.find?, Int.toNat_ofNat]

/-- C10: the test program's main returns 0 exactly when all five tests complete
without throwing, 1 when a SubprocessException propagates out of the sequence,
2 when any other exception does, and in every case returns one of these three
codes, so no exception escapes main. -/
theorem main_exit_codes (t1 t2 t3 t4 t5 : TestResult) :
    (mainFn t1 t2 t3 t4 t5 = 0 ↔
      t1 = Except.ok () ∧ t2 = Except.ok () ∧ t3 = Except.ok () ∧
        t4 = Except.ok () ∧ t5 = Except.ok ()) ∧
    (∀ e, runAllTests t1 t2 t3 t4 t5 = Except.error (TestExc.subprocessExc e) →
      mainFn t1 t2 t3 t4 t5 = 1) ∧
    (runAllTests t1 t2 t3 t4 t5 = Except.error TestExc.otherExc →
      mainFn t1 t2 t3 t4 t5 = 2) ∧
    (mainFn t1 t2 t3 t4 t5 = 0 ∨ mainFn t1 t2 t3 t4 t5 = 1 ∨
      mainFn t1 t2 t3 t4 t5 = 2) := by
  rcases t1 with e1 | ⟨⟩ <;> try rcases e1 with ⟨se1⟩ | _
  all_goals rcases t2 with e2 | ⟨⟩ <;> try rcases e2 with ⟨se2⟩ | _
  all_goals rcases t3 with e3 | ⟨⟩ <;> try rcases e3 with ⟨se3⟩ | _
  all_goals rcases t4 with e4 | ⟨⟩ <;> try rcases e4 with ⟨se4⟩ | _
  all_goals rcases t5 with e5 | ⟨⟩ <;> try rcases e5 with ⟨se5⟩ | _
  all_goals simp [mainFn, runAllTests]

/-- Witness for C2: a non-executable command with ample resources. -/
theorem subprocess_failure_modes_witness :
    ((∃ e st1, subprocess ["/no/such"] true false demoState = (Except.error e, st1)) ↔
      demoState.pipeBudget < cond true 1 0 + cond false 1 0 ∨
        demoState.forkBudget = 0) ∧
    (∀ hnd st1, subprocess ["/no/such"] true false demoState = (Except.ok hnd, st1) →
      ∃ code st2, waitpid hnd.pid.toNat st1 = some (ExitStatus.exited code, st2) ∧
        code ≠ 0) :=
  subprocess_failure_modes ["/no/such"] true false demoState (by decide)

/-- Witness for C4: process creation fails after both pipes were created. -/
theorem subprocess_error_atomic_witness :
    ({ nextFd := 7, openFds := [0, 1, 2], nextPid := 1, livePids := [],
       children := [], pipeBudget := 0, forkBudget := 0,
       execPaths := [kSortExecutable] } : OSState).openFds =
      ({ demoState with forkBudget := 0 } : OSState).openFds :=
  subprocess_error_atomic [kSortExecutable] true true
    { demoState with forkBudget := 0 } ⟨"process creation failed"⟩
    { nextFd := 7, openFds := [0, 1, 2], nextPid := 1, livePids := [],
      children := [], pipeBudget := 0, forkBudget := 0,
      execPaths := [kSortExecutable] }
    (by decide) rfl

/-- Witness for C6 at a concrete successful spawn from the demonstration
state. -/
theorem subprocess_pid_fresh_witness :
    0 < (subprocess_t.mk 1 4 5).pid ∧
      (subprocess_t.mk 1 4 5).pid.toNat ∉ demoState.livePids ∧
      ({ nextFd := 7, openFds := [5, 4, 0, 1, 2], nextPid := 2, livePids := [1],
         children := [{ pid := 1, outcome := ChildOutcome.execed, killedBy := none }],
         pipeBudget := 0, forkBudget := 0,
         execPaths := [kSortExecutable] } : OSState).livePids =
        (subprocess_t.mk 1 4 5).pid.toNat :: demoState.livePids ∧
      ({ nextFd := 7, openFds := [5, 4, 0, 1, 2], nextPid := 2, livePids := [1],
         children := [{ pid := 1, outcome := ChildOutcome.execed, killedBy := none }],
         pipeBudget := 0, forkBudget := 0,
         execPaths := [kSortExecutable] } : OSState).livePids.Nodup ∧
      ∀ p ∈ ({ nextFd := 7, openFds := [5, 4, 0, 1, 2], nextPid := 2,
               livePids := [1],
               children := [{ pid := 1, outcome := ChildOutcome.execed, killedBy := none }],
               pipeBudget := 0, forkBudget := 0,
               execPaths := [kSortExecutable] } : OSState).livePids,
        p < ({ nextFd := 7, openFds := [5, 4, 0, 1, 2], nextPid := 2,
               livePids := [1],
               children := [{ pid := 1, outcome := ChildOutcome.execed, killedBy := none }],
               pipeBudget := 0, forkBudget := 0,
               execPaths := [kSortExecutable] } : OSState).nextPid :=
  subprocess_pid_fresh [kSortExecutable] true true demoState
    (subprocess_t.mk 1 4 5)
    { nextFd := 7, openFds := [5, 4, 0, 1, 2], nextPid := 2, livePids := [1],
      children := [{ pid := 1, outcome := ChildOutcome.execed, killedBy := none }],
      pipeBudget := 0, forkBudget := 0, execPaths := [kSortExecutable] }
    (by decide) (by decide) (by decide) rfl

/-- Witness for C8 at a concrete spawn with both redirections disabled. -/
theorem kill_then_reap_abnormal_witness :
    0 < (subprocess_t.mk 1 (-1) (-1)).pid ∧
      (subprocess_t.mk 1 (-1) (-1)).supplyfd = kNotInUse ∧
      (subprocess_t.mk 1 (-1) (-1)).ingestfd = kNotInUse ∧
      ∃ st2,
        waitForChildProcess (subprocess_t.mk 1 (-1) (-1)).pid.toNat
            (kill (subprocess_t.mk 1 (-1) (-1)).pid.toNat SIGTERM
              { nextFd := 3, openFds := [0, 1, 2], nextPid := 2, livePids := [1],
                children := [{ pid := 1, outcome := ChildOutcome.execed, killedBy := none }],
                pipeBudget := 2, forkBudget := 0,
                execPaths := [kSortExecutable] }) =
          Except.ok (ExitStatus.signaled SIGTERM, st2) :=
  kill_then_reap_abnormal [kSortExecutable] demoState
    (subprocess_t.mk 1 (-1) (-1))
    { nextFd := 3, openFds := [0, 1, 2], nextPid := 2, livePids := [1],
      children := [{ pid := 1, outcome := ChildOutcome.execed, killedBy := none }],
      pipeBudget := 2, forkBudget := 0, execPaths := [kSortExecutable] }
    (by decide) rfl

/-- Witness for C10 at the all-tests-pass run. -/
theorem main_exit_codes_witness :
    (mainFn (Except.ok ()) (Except.ok ()) (Except.ok ()) (Except.ok ())
        (Except.ok ()) = 0 ↔
      (Except.ok () : TestResult) = Except.ok () ∧
        (Except.ok () : TestResult) = Except.ok () ∧
        (Except.ok () : TestResult) = Except.ok () ∧
        (Except.ok () : TestResult) = Except.ok () ∧
        (Except.ok () : TestResult) = Except.ok ()) ∧
    (∀ e, runAllTests (Except.ok ()) (Except.ok ()) (Except.ok ()) (Except.ok ())
          (Except.ok ()) = Except.error (TestExc.subprocessExc e) →
      mainFn (Except.ok ()) (Except.ok ()) (Except.ok ()) (Except.ok ())
          (Except.ok ()) = 1) ∧
    (runAllTests (Except.ok ()) (Except.ok ()) (Except.ok ()) (Except.ok ())
          (Except.ok ()) = Except.error TestExc.otherExc →
      mainFn (Except.ok ()) (Except.ok ()) (Except.ok ()) (Except.ok ())
          (Except.ok ()) = 2) ∧
    (mainFn (Except.ok ()) (Except.ok ()) (Except.ok ()) (Except.ok ())
          (Except.ok ()) = 0 ∨
      mainFn (Except.ok ()) (Except.ok ()) (Except.ok ()) (Except.ok ())
          (Except.ok ()) = 1 ∨
      mainFn (Except.ok ()) (Except.ok ()) (Except.ok ()) (Except.ok ())
          (Except.ok ()) = 2) :=
  main_exit_codes (Except.ok ()) (Except.ok ()) (Except.ok ()) (Except.ok ())
    (Except.ok ())
